import Mathlib

/-!
Verification development for the k8s bare-metal cluster bootstrap tool.

The repository drives Kubernetes cluster creation on AWS: `terraform_tools.py`
wraps terraform subprocess invocations, `ssh_tools.py` wraps paramiko SSH
command execution, SFTP file transfer and shell-script generation,
`main.py` validates the user configuration, and `k8s_manager.py` exposes the
`setup_kubernetes_cluster` / `destroy_cluster` entry points.

Each Python function relevant to the claims is embedded as a Lean function.
Interactions with the outside world (the SSH connection, the remote command,
the subprocess, the filesystem) are passed in explicitly as oracle values
describing the outcome of each external step, so the embedded function is the
deterministic part of the source acting on those outcomes.
-/

set_option autoImplicit false
set_option maxRecDepth 100000

/-! ## Substring helper

`listHasPre p l` decides whether `p` is a prefix of `l`; `containsStr pat s`
decides whether `pat` occurs as a contiguous substring of `s`.  Used to state
what a returned or persisted string does or does not embed. -/

def listHasPre : List Char → List Char → Bool
  | [], _ => true
  | _ :: _, [] => false
  | p :: ps, c :: cs => p == c && listHasPre ps cs

def listHasSub (p : List Char) : List Char → Bool
  | [] => p.isEmpty
  | c :: cs => listHasPre p (c :: cs) || listHasSub p cs

def containsStr (pat s : String) : Bool :=
  listHasSub pat.data s.data

/-! ## Embedding of `ssh_tools.SSHConnectionTool._run`

The source opens one paramiko connection, runs the command once, and formats
a result string.  A raised exception anywhere in the `try` block (connection
refused, timeout, transient auth failure, ...) is caught by the single
`except Exception` clause and rendered as `"SSH error: ..."`.  There is no
loop in the function: exactly one attempt is ever made. -/

/-- Outcome of the remote command: exit status plus the two captured streams,
as produced by `exec_command` / `recv_exit_status` in the source. -/
structure RemoteExec where
  exitStatus : Nat
  stdout : String
  stderr : String
deriving DecidableEq, Repr

/-- Outcome of one connection/execution attempt of `SSHConnectionTool._run`:
either the transport raised (connection refused / timeout / auth), or the
command completed with a `RemoteExec` result. -/
inductive SshAttempt where
  | transport (msg : String)
  | completes (res : RemoteExec)
deriving DecidableEq, Repr

/-- Embeds the body of `SSHConnectionTool._run` (ssh_tools.py lines 11-52):
the string returned for a given outcome of the single attempt. -/
def ssh_execute_run (attempt : SshAttempt) : String :=
  match attempt with
  | .transport m => "SSH error: " ++ m
  | .completes e =>
    if e.exitStatus == 0 then
      "Command executed successfully:\n" ++ e.stdout
    else
      "Command failed with exit status " ++ toString e.exitStatus ++ ":\n" ++ e.stderr

/-- `SSHConnectionTool._run` against a whole behaviour stream (attempt `n`'s
outcome is `behaviour n`): the source contains no retry loop, so it consults
only attempt 0 and returns after that single attempt.  Result: number of
attempts actually made, paired with the returned string. -/
def ssh_execute_trace (behaviour : Nat → SshAttempt) : Nat × String :=
  (1, ssh_execute_run (behaviour 0))

/-- Outcome of one attempt of `SCPTransferTool._run` (ssh_tools.py lines
58-139): either the transport raised (caught and rendered `"SCP error: ..."`),
or the SFTP session completed and the `_run` body produced `res` (the
transfer itself is modelled in detail by `uploadDirActions` /
`scp_download_recursive` below). -/
inductive ScpAttempt where
  | transport (msg : String)
  | completes (res : String)
deriving DecidableEq, Repr

/-- `SCPTransferTool._run` against a behaviour stream: like
`ssh_execute_trace`, the source has no retry loop, so exactly one attempt is
made and a transport failure surfaces immediately. -/
def scp_transfer_trace (behaviour : Nat → ScpAttempt) : Nat × String :=
  match behaviour 0 with
  | .transport m => (1, "SCP error: " ++ m)
  | .completes r => (1, r)

/-! ## Embedding of `ssh_tools.ScriptGeneratorTool`

The three `_generate_*` functions are Python f-string templates; they are
transcribed literally (apostrophes escaped as `\x27`).  The parameter
dictionary is modelled as a string-valued lookup, `Params.getD` mirroring
`parameters.get(key, default)`. -/

structure Params where
  find : String → Option String

def Params.getD (p : Params) (k d : String) : String := (p.find k).getD d

/-- Text of `_generate_common_script` before the first
`{kubernetes_version}` splice. -/
def commonA : String :=
  "#!/bin/bash\nset -e\n\n# Common setup script for Kubernetes nodes\n\n# Update system and install dependencies\napt-get update\napt-get upgrade -y\napt-get install -y apt-transport-https ca-certificates curl software-properties-common gnupg\n\n# Disable swap\nswapoff -a\nsed -i \x27/swap/d\x27 /etc/fstab\n\n# Load kernel modules\ncat <<EOF | tee /etc/modules-load.d/k8s.conf\noverlay\nbr_netfilter\nEOF\n\nmodprobe overlay\nmodprobe br_netfilter\n\n# Set up required sysctl params\ncat <<EOF | tee /etc/sysctl.d/k8s.conf\nnet.bridge.bridge-nf-call-iptables  = 1\nnet.bridge.bridge-nf-call-ip6tables = 1\nnet.ipv4.ip_forward                 = 1\nEOF\n\nsysctl --system\n\n# Install containerd\ncurl -fsSL https://download.docker.com/linux/ubuntu/gpg | gpg --dearmor -o /etc/apt/keyrings/docker.gpg\necho \"deb [arch=$(dpkg --print-architecture) signed-by=/etc/apt/keyrings/docker.gpg] https://download.docker.com/linux/ubuntu $(lsb_release -cs) stable\" | tee /etc/apt/sources.list.d/docker.list\napt-get update\napt-get install -y containerd.io\n\n# Configure containerd to use systemd as cgroup driver\nmkdir -p /etc/containerd\ncontainerd config default | tee /etc/containerd/config.toml\nsed -i \x27s/SystemdCgroup = false/SystemdCgroup = true/g\x27 /etc/containerd/config.toml\nsystemctl restart containerd\nsystemctl enable containerd\n\n# Install Kubernetes components\ncurl -fsSL https://pkgs.k8s.io/core:/stable:/v"

/-- Text of `_generate_common_script` between the two `{kubernetes_version}`
splices. -/
def commonB : String :=
  "/deb/Release.key | gpg --dearmor -o /etc/apt/keyrings/kubernetes-apt-keyring.gpg\necho \"deb [signed-by=/etc/apt/keyrings/kubernetes-apt-keyring.gpg] https://pkgs.k8s.io/core:/stable:/v"

/-- Text of `_generate_common_script` after the second `{kubernetes_version}`
splice. -/
def commonC : String :=
  "/deb/ /\" | tee /etc/apt/sources.list.d/kubernetes.list\napt-get update\napt-get install -y kubelet kubeadm kubectl\napt-mark hold kubelet kubeadm kubectl\n\necho \"Common node setup completed!\"\n"

/-- Embeds `ScriptGeneratorTool._generate_common_script` (ssh_tools.py lines
176-235).  `containerd_version` is fetched in the source but never used in the
template; it is kept here for fidelity. -/
def generate_common_script (p : Params) : String :=
  let kubernetes_version := p.getD "kubernetes_version" "1.28.2"
  let _containerd_version := p.getD "containerd_version" "1.7.2"
  commonA ++ kubernetes_version ++ commonB ++ kubernetes_version ++ commonC

/-- Text of `_generate_k8s_master_script` before the `{pod_network_cidr}`
splice. -/
def masterA : String :=
  "#!/bin/bash\nset -e\n\n# Master node setup script\n\n# Initialize Kubernetes cluster\nkubeadm init --pod-network-cidr="

/-- Text of `_generate_k8s_master_script` between the two splices. -/
def masterB : String :=
  " --service-cidr="

/-- Text of `_generate_k8s_master_script` after the `{service_cidr}` splice
up to (excluding) the line that persists the join command. -/
def masterC1 : String :=
  "\n\n# Set up kubeconfig for the user\nmkdir -p $HOME/.kube\ncp -i /etc/kubernetes/admin.conf $HOME/.kube/config\nchown $(id -u):$(id -g) $HOME/.kube/config\n\n# Install Calico network plugin\nkubectl create -f https://raw.githubusercontent.com/projectcalico/calico/master/manifests/tigera-operator.yaml\nkubectl create -f https://raw.githubusercontent.com/projectcalico/calico/master/manifests/custom-resources.yaml\n\n# Generate join command for worker nodes\nJOIN_COMMAND=$(kubeadm token create --print-join-command)\n"

/-- The line of the master script that writes the join command to a file on
the control-plane host's disk. -/
def masterPersistLine : String :=
  "echo \"$JOIN_COMMAND\" > /root/k8s_join_command.sh"

/-- Text of `_generate_k8s_master_script` after the persisting line. -/
def masterC2 : String :=
  "\n\n# Output cluster info\nkubectl cluster-info\nkubectl get nodes\n\necho \"Master node setup completed!\"\n"

/-- Embeds `ScriptGeneratorTool._generate_k8s_master_script` (ssh_tools.py
lines 237-269). -/
def generate_k8s_master_script (p : Params) : String :=
  let pod_network_cidr := p.getD "pod_network_cidr" "10.244.0.0/16"
  let service_cidr := p.getD "service_cidr" "10.96.0.0/12"
  masterA ++ pod_network_cidr ++ masterB ++ service_cidr ++
    masterC1 ++ masterPersistLine ++ masterC2

/-- Text of `_generate_k8s_worker_script` before the `{join_command}`
splice. -/
def workerPre : String :=
  "#!/bin/bash\nset -e\n\n# Worker node setup script\n\n# Join the cluster\n"

/-- Text of `_generate_k8s_worker_script` after the `{join_command}`
splice. -/
def workerSuf : String :=
  "\n\necho \"Worker node joined the cluster!\"\n"

/-- Embeds `ScriptGeneratorTool._generate_k8s_worker_script` (ssh_tools.py
lines 271-285). -/
def generate_k8s_worker_script (p : Params) : String :=
  let join_command := p.getD "join_command" ""
  workerPre ++ join_command ++ workerSuf

/-- Embeds `ScriptGeneratorTool._run` (ssh_tools.py lines 145-174): picks the
template by `script_type` (checked in the source's `if`/`elif` order), writes
the rendered text to `output_path`, and returns the status message.  Result:
the list of `(path, content)` files written to local durable storage, paired
with the returned string.  (`os.makedirs` of the parent directory and the
`os.chmod` call create no file content and are not recorded.) -/
def script_generator_run (script_type output_path : String) (p : Params) :
    List (String × String) × String :=
  if script_type = "k8s_master" then
    ([(output_path, generate_k8s_master_script p)], "Script generated at " ++ output_path)
  else if script_type = "k8s_worker" then
    ([(output_path, generate_k8s_worker_script p)], "Script generated at " ++ output_path)
  else if script_type = "common" then
    ([(output_path, generate_common_script p)], "Script generated at " ++ output_path)
  else
    ([], "Unknown script type: " ++ script_type)

/-! ## Embedding of `main.validate_config`

The configuration dictionary is modelled as the record of the fields that
`validate_config` reads, plus the list of keys present in the dictionary
(used by the required-fields check).  The two `os.path.exists` checks on the
SSH key paths depend on the local filesystem, passed in as the oracle
`fsExists` (path expansion by `os.path.expanduser` is absorbed into the
oracle). -/

structure K8sConfig where
  keys : List String
  master_count : Int
  worker_count : Int
  ssh_public_key_path : String
  ssh_private_key_path : String
deriving DecidableEq, Repr

/-- The `required_fields` list of `main.validate_config`. -/
def requiredFields : List String :=
  ["cluster_name", "aws_region", "availability_zones", "vpc_cidr",
   "master_count", "worker_count", "ssh_public_key_path", "ssh_private_key_path"]

/-- Embeds `main.validate_config` (main.py lines 60-86): fails when a required
field is missing, when `master_count < 1`, or when either SSH key file does
not exist; otherwise succeeds.  No check ever reads `worker_count`'s value. -/
def validate_config (cfg : K8sConfig) (fsExists : String → Bool) : Bool :=
  if requiredFields.all (fun f => cfg.keys.contains f) then
    if cfg.master_count < 1 then false
    else if !fsExists cfg.ssh_public_key_path then false
    else if !fsExists cfg.ssh_private_key_path then false
    else true
  else false

/-! ## Embedding of `k8s_manager.K8sClusterManager`

`setup_kubernetes_cluster` wraps `create_terraform_files` and
`self.agent.invoke` in a single `try`/`except Exception` and always returns a
dictionary; `destroy_cluster` does the same around its `invoke`.  Each callee
is modelled by an oracle outcome: it either returns a value or raises an
exception carrying a message. -/

/-- Outcome of a Python call: normal return or a raised exception rendered by
`str(e)`. -/
inductive PyOutcome (α : Type) where
  | ok (a : α)
  | raises (msg : String)
deriving DecidableEq, Repr

/-- The dictionary returned by the two entry points: `success`/`message` plus
`agent_output` on success or `error` on failure. -/
inductive ClusterResult where
  | ok (message : String) (agent_output : String)
  | err (message : String) (error : String)
deriving DecidableEq, Repr

def ClusterResult.success : ClusterResult → Bool
  | .ok _ _ => true
  | .err _ _ => false

def ClusterResult.message : ClusterResult → String
  | .ok m _ => m
  | .err m _ => m

/-- Embeds `K8sClusterManager.setup_kubernetes_cluster` (k8s_manager.py lines
409-460).  `create_files` is the outcome of `create_terraform_files(config)`;
`invoke` is the outcome of `self.agent.invoke({...})` (the free-form LLM
agent run, whose output is opaque here). -/
def setup_kubernetes_cluster (create_files : PyOutcome Unit)
    (invoke : PyOutcome String) : ClusterResult :=
  match create_files with
  | .raises e => .err ("Error setting up Kubernetes cluster: " ++ e) e
  | .ok _ =>
    match invoke with
    | .raises e => .err ("Error setting up Kubernetes cluster: " ++ e) e
    | .ok out => .ok "Kubernetes cluster setup completed successfully" out

/-- Embeds `K8sClusterManager.destroy_cluster` (k8s_manager.py lines
462-483). -/
def destroy_cluster (invoke : PyOutcome String) : ClusterResult :=
  match invoke with
  | .raises e => .err ("Error destroying Kubernetes cluster: " ++ e) e
  | .ok out => .ok "Kubernetes cluster destroyed successfully" out

/-! ## Embedding of `terraform_tools`

Every tool's `_run` does `os.chdir(workspace_dir)`, runs terraform via
`subprocess.run`, and has `finally: os.chdir("..")`.  The working directory
is modelled as an absolute path given by its list of segments; entering the
workspace (an immediate child name) appends a segment, `os.chdir("..")`
drops the last segment.  `enter` is the outcome of `os.chdir(workspace_dir)`
(`none` = succeeded, `some msg` = raised).  `proc` is the outcome of the
terraform subprocess; flag/variable arguments only change the command line
handed to the subprocess, so they are absorbed into that oracle. -/

/-- Outcome of a `subprocess.run` call: a completed process with return code
and captured streams, or a raised exception (e.g. the binary is missing). -/
inductive TfProc where
  | run (returncode : Nat) (stdout stderr : String)
  | raises (msg : String)
deriving DecidableEq, Repr

/-- What a tool call does to the caller: return a string or propagate an
exception. -/
inductive PyResult where
  | returns (s : String)
  | raises (msg : String)
deriving DecidableEq, Repr

/-- Embeds `TerraformInitTool._run` (terraform_tools.py lines 12-23).
`check=True` turns a non-zero return code into a `CalledProcessError`, which
the `except` clause renders from its `stderr`; any other exception (including
a failed `chdir`) propagates, but `finally: os.chdir("..")` always runs. -/
def terraform_init_run (cwd : List String) (workspace_dir : String)
    (enter : Option String) (proc : TfProc) : List String × PyResult :=
  match enter with
  | some m => (cwd.dropLast, .raises m)
  | none =>
    let res : PyResult :=
      match proc with
      | .run 0 out _ => .returns ("Terraform initialization complete:\n" ++ out)
      | .run (_ + 1) _ err => .returns ("Error initializing Terraform: " ++ err)
      | .raises m => .raises m
    ((cwd ++ [workspace_dir]).dropLast, res)

/-- Embeds `TerraformPlanTool._run` (terraform_tools.py lines 29-55).  The
generic `except Exception` catches every raised exception (including a failed
`chdir`), so this tool always returns a string. -/
def terraform_plan_run (cwd : List String) (workspace_dir : String)
    (enter : Option String) (proc : TfProc) : List String × PyResult :=
  match enter with
  | some m => (cwd.dropLast, .returns ("Error executing Terraform plan: " ++ m))
  | none =>
    let res : PyResult :=
      match proc with
      | .run 0 _ _ => .returns "Terraform plan shows no changes needed"
      | .run 2 out _ => .returns ("Terraform plan generated with changes:\n" ++ out)
      | .run _ _ err => .returns ("Error in Terraform plan: " ++ err)
      | .raises m => .returns ("Error executing Terraform plan: " ++ m)
    ((cwd ++ [workspace_dir]).dropLast, res)

/-- Embeds `TerraformApplyTool._run` (terraform_tools.py lines 61-104).  On a
zero return code the tool runs `terraform output -json` as a second
subprocess (`outputsProc`) and formats its parsed JSON; `parsed` models
`json.loads`/`json.dumps` on that stdout (`some s` = re-serialized text,
`none` = `JSONDecodeError`). -/
def terraform_apply_run (cwd : List String) (workspace_dir : String)
    (enter : Option String) (proc : TfProc) (outputsProc : TfProc)
    (parsed : Option String) : List String × PyResult :=
  match enter with
  | some m => (cwd.dropLast, .returns ("Error executing Terraform apply: " ++ m))
  | none =>
    let res : PyResult :=
      match proc with
      | .run 0 _ _ =>
        match outputsProc with
        | .run 0 _ _ =>
          match parsed with
          | some formatted => .returns ("Terraform apply successful. Outputs:\n" ++ formatted)
          | none => .returns "Terraform apply successful. No outputs or error parsing outputs."
        | .run (_ + 1) _ err =>
          .returns ("Terraform apply successful, but error fetching outputs: " ++ err)
        | .raises m => .returns ("Error executing Terraform apply: " ++ m)
      | .run (_ + 1) _ err => .returns ("Error in Terraform apply: " ++ err)
      | .raises m => .returns ("Error executing Terraform apply: " ++ m)
    ((cwd ++ [workspace_dir]).dropLast, res)

/-- Embeds `TerraformOutputTool._run` (terraform_tools.py lines 110-134).
`parsed` models `json.loads`/`json.dumps` on the subprocess stdout. -/
def terraform_output_run (cwd : List String) (workspace_dir : String)
    (enter : Option String) (proc : TfProc) (parsed : Option String) :
    List String × PyResult :=
  match enter with
  | some m => (cwd.dropLast, .returns ("Error executing Terraform output command: " ++ m))
  | none =>
    let res : PyResult :=
      match proc with
      | .run 0 out _ =>
        match parsed with
        | some formatted => .returns formatted
        | none => .returns ("Error parsing Terraform outputs: " ++ out)
      | .run (_ + 1) _ err => .returns ("Error getting Terraform outputs: " ++ err)
      | .raises m => .returns ("Error executing Terraform output command: " ++ m)
    ((cwd ++ [workspace_dir]).dropLast, res)

/-- Embeds `TerraformDestroyTool._run` (terraform_tools.py lines 140-168). -/
def terraform_destroy_run (cwd : List String) (workspace_dir : String)
    (enter : Option String) (proc : TfProc) : List String × PyResult :=
  match enter with
  | some m => (cwd.dropLast, .returns ("Error executing Terraform destroy: " ++ m))
  | none =>
    let res : PyResult :=
      match proc with
      | .run 0 _ _ => .returns "Terraform destroy completed successfully"
      | .run (_ + 1) _ err => .returns ("Error in Terraform destroy: " ++ err)
      | .raises m => .raises m
    ((cwd ++ [workspace_dir]).dropLast, res)

/-! ## Embedding of the recursive transfer logic of `ssh_tools`

Paths are modelled as lists of segments (`os.path.join` appends a segment;
`os.path.relpath p base` with `base` a prefix of `p` drops `base`'s
segments).  A directory's contents are a list of `FsTree` entries in
iteration order (the order `os.walk` / `sftp.listdir` reports them).

The upload branch of `SCPTransferTool._run` (ssh_tools.py lines 89-114)
first ensures the destination directory exists (`sftp.stat`, and `mkdir` when
the check raises `FileNotFoundError`), then iterates `os.walk(local_path)`
top-down; at each frame it ensures each subdirectory exists and then `put`s
each file.  The download branch (lines 119-127 and `download_dir_recursive`,
lines 294-304) mirrors it: ensure the local directory exists, then per
`listdir` item either recurse into a subdirectory (creating it first when
missing) or `get` the file.

The side effects are recorded as an ordered action trace: `ensureRemoteDir`/
`ensureLocalDir` is the stat-then-create-if-missing unit, `put`/`get` is a
single file transfer. -/

inductive FsTree where
  | file (name : String)
  | dir (name : String) (children : List FsTree)

inductive ScpAction where
  | ensureRemoteDir (path : List String)
  | put (localPath remotePath : List String)
  | ensureLocalDir (path : List String)
  | get (remotePath localPath : List String)
deriving DecidableEq, Repr

/-- `os.path.relpath p base` for `base` a prefix of `p`. -/
def relpath (p base : List String) : List String := p.drop base.length

/-- The `dirs` component of an `os.walk` frame. -/
def dirNames (ts : List FsTree) : List String :=
  ts.filterMap fun t => match t with | .dir n _ => some n | .file _ => none

/-- The `files` component of an `os.walk` frame. -/
def fileNames (ts : List FsTree) : List String :=
  ts.filterMap fun t => match t with | .file n => some n | .dir _ _ => none

/-- Body of the upload loop at one `os.walk` frame `(root, dirs, files)`
(ssh_tools.py lines 98-112): ensure each subdirectory of `root` exists on the
remote side, then `put` each file of `root`, destination paths formed with
`os.path.join(remote_path, os.path.relpath(..., local_path))`. -/
def walkFrameActions (local_path remote_path root : List String)
    (ts : List FsTree) : List ScpAction :=
  (dirNames ts).map (fun d => ScpAction.ensureRemoteDir (remote_path ++ relpath (root ++ [d]) local_path))
  ++ (fileNames ts).map (fun f => ScpAction.put (root ++ [f]) (remote_path ++ relpath (root ++ [f]) local_path))

mutual
/-- Frames contributed by one entry of a directory being walked: a file adds
no frame of its own; a subdirectory `n` adds its frame (processed by
`walkFrameActions`) followed, depth-first, by the frames of its own
subdirectories — exactly `os.walk`'s top-down order. -/
def subWalkTree (local_path remote_path root : List String) :
    FsTree → List ScpAction
  | .file _ => []
  | .dir n cs =>
    walkFrameActions local_path remote_path (root ++ [n]) cs
      ++ subWalkList local_path remote_path (root ++ [n]) cs

/-- Frames contributed by the subdirectories of a walked directory, in
iteration order. -/
def subWalkList (local_path remote_path root : List String) :
    List FsTree → List ScpAction
  | [] => []
  | t :: rest =>
    subWalkTree local_path remote_path root t
      ++ subWalkList local_path remote_path root rest
end

/-- The whole `os.walk(local_path)` loop of the upload branch: the top frame
`(local_path, contents)` first, then every deeper frame top-down. -/
def uploadWalk (local_path remote_path : List String) (ts : List FsTree) :
    List ScpAction :=
  walkFrameActions local_path remote_path local_path ts
    ++ subWalkList local_path remote_path local_path ts

/-- The recursive-upload branch of `SCPTransferTool._run` (ssh_tools.py lines
90-114): ensure `remote_path` exists, then run the walk loop. -/
def uploadDirActions (local_path remote_path : List String)
    (ts : List FsTree) : List ScpAction :=
  ScpAction.ensureRemoteDir remote_path :: uploadWalk local_path remote_path ts

mutual
/-- One iteration of the loop in `download_dir_recursive` (ssh_tools.py lines
295-304): a directory item is created locally when missing and then recursed
into; a file item is fetched. -/
def downloadItem (remote_dir local_dir : List String) :
    FsTree → List ScpAction
  | .file n => [ScpAction.get (remote_dir ++ [n]) (local_dir ++ [n])]
  | .dir n cs =>
    ScpAction.ensureLocalDir (local_dir ++ [n])
      :: download_dir_recursive (remote_dir ++ [n]) (local_dir ++ [n]) cs

/-- Embeds `download_dir_recursive(sftp, remote_dir, local_dir)`: processes
the `listdir` items in order. -/
def download_dir_recursive (remote_dir local_dir : List String) :
    List FsTree → List ScpAction
  | [] => []
  | t :: rest =>
    downloadItem remote_dir local_dir t
      ++ download_dir_recursive remote_dir local_dir rest
end

/-- The recursive-download branch of `SCPTransferTool._run` (ssh_tools.py
lines 120-127): ensure `local_path` exists locally, then recurse. -/
def scp_download_recursive (remote_path local_path : List String)
    (ts : List FsTree) : List ScpAction :=
  ScpAction.ensureLocalDir local_path
    :: download_dir_recursive remote_path local_path ts

/-- A regular file exists at relative path `r` (segments) below a directory
with contents `ts`. -/
inductive FileAt : List FsTree → List String → Prop
  | here {ts : List FsTree} {n : String} :
      FsTree.file n ∈ ts → FileAt ts [n]
  | there {ts : List FsTree} {n : String} {cs : List FsTree} {r : List String} :
      FsTree.dir n cs ∈ ts → FileAt cs r → FileAt ts (n :: r)

/-! ## Shared concrete parameter dictionaries for witnesses/counterexamples -/

/-- Parameters carrying only a join command (as the worker-script generation
step receives them). -/
def paramsJoinOnly : Params :=
  ⟨fun k => if k = "join_command"
    then some "kubeadm join 10.0.0.1:6443 --token tok-123 --discovery-token-ca-cert-hash sha256:abc"
    else none⟩

/-- Parameters agreeing with `paramsJoinOnly` on `join_command` (and on the
keys the generators consult) but differing elsewhere. -/
def paramsJoinPlus : Params :=
  ⟨fun k => if k = "join_command"
    then some "kubeadm join 10.0.0.1:6443 --token tok-123 --discovery-token-ca-cert-hash sha256:abc"
    else if k = "kubernetes_version" ∨ k = "containerd_version" ∨ k = "pod_network_cidr" ∨ k = "service_cidr"
    then none
    else some "unrelated"⟩

/-! ## Claim C3 — retry policy of the transfer/command operations -/

/-- Claim C3 states that a transient transport failure of a remote-command or
file-transfer Operation is retried (with bounded exponential backoff, up to a
per-Operation attempt ceiling) before being surfaced.  Its weakest
consequence is: whenever attempt 0 fails with a transport error, at least a
second attempt is made.  This is false of the source: `SSHConnectionTool._run`
contains no loop, so `ssh_execute_trace` makes exactly one attempt for every
behaviour — here refuted at the behaviour whose first attempt is a refused
connection. -/
theorem c3_counterexample :
    ¬ (∀ behaviour : Nat → SshAttempt,
        (∃ m, behaviour 0 = SshAttempt.transport m) →
          2 ≤ (ssh_execute_trace behaviour).fst) := by
  intro h
  have h1 := h (fun _ => SshAttempt.transport "Connection refused")
    ⟨"Connection refused", rfl⟩
  simp [ssh_execute_trace] at h1

/-- C3 (amended): transient transport failures are not retried at all — both
`ssh_execute` and `scp_transfer` make exactly one attempt and surface the
transport error immediately as an error string; a non-zero remote exit status
is likewise never retried and is surfaced immediately with the captured
stderr. -/
theorem c3_no_retry_immediate_surfacing (b : Nat → SshAttempt)
    (bs : Nat → ScpAttempt) (m : String) (e : RemoteExec) :
    (ssh_execute_trace b).fst = 1
    ∧ (scp_transfer_trace bs).fst = 1
    ∧ (b 0 = SshAttempt.transport m →
        (ssh_execute_trace b).snd = "SSH error: " ++ m)
    ∧ (bs 0 = ScpAttempt.transport m →
        (scp_transfer_trace bs).snd = "SCP error: " ++ m)
    ∧ (b 0 = SshAttempt.completes e → e.exitStatus ≠ 0 →
        (ssh_execute_trace b).snd =
          "Command failed with exit status " ++ toString e.exitStatus ++ ":\n" ++ e.stderr) := by
  refine ⟨rfl, ?_, ?_, ?_, ?_⟩
  · cases hb : bs 0 <;> simp [scp_transfer_trace, hb]
  · intro h; simp [ssh_execute_trace, ssh_execute_run, h]
  · intro h; simp [scp_transfer_trace, h]
  · intro h hne; simp [ssh_execute_trace, ssh_execute_run, h, hne]

/-- Witness for `c3_no_retry_immediate_surfacing` at concrete behaviours:
one attempt is made, a timed-out first attempt surfaces at once, and a
non-zero exit status surfaces at once. -/
theorem c3_witness :
    (ssh_execute_trace (fun _ => SshAttempt.transport "timed out")).fst = 1
    ∧ (scp_transfer_trace (fun _ => ScpAttempt.transport "timed out")).fst = 1
    ∧ (ssh_execute_trace (fun _ => SshAttempt.transport "timed out")).snd = "SSH error: timed out"
    ∧ (scp_transfer_trace (fun _ => ScpAttempt.transport "timed out")).snd = "SCP error: timed out"
    ∧ (ssh_execute_trace (fun _ => SshAttempt.completes ⟨3, "o", "e"⟩)).snd =
        "Command failed with exit status 3:\ne" := by
  have h1 := c3_no_retry_immediate_surfacing (fun _ => SshAttempt.transport "timed out")
    (fun _ => ScpAttempt.transport "timed out") "timed out" ⟨3, "o", "e"⟩
  have h2 := c3_no_retry_immediate_surfacing (fun _ => SshAttempt.completes ⟨3, "o", "e"⟩)
    (fun _ => ScpAttempt.completes "ok") "x" ⟨3, "o", "e"⟩
  exact ⟨h1.1, h1.2.1, h1.2.2.1 rfl, h1.2.2.2.1 rfl, h2.2.2.2.2 rfl (by decide)⟩

/-! ## Claim C4 — what `execute` returns -/

/-- Claim C4 states that `execute` returns the remote exit status together
with both captured streams.  False of the source: on exit status 0 the
returned string embeds stdout but not stderr; on a non-zero status it embeds
the status and stderr but not stdout.  Refuted at the concrete execution with
exit status 0, stdout `"out"`, stderr `"err"` (and the converse at status
5). -/
theorem c4_counterexample :
    ssh_execute_run (SshAttempt.completes ⟨0, "out", "err"⟩)
      = "Command executed successfully:\nout"
    ∧ containsStr "err" (ssh_execute_run (SshAttempt.completes ⟨0, "out", "err"⟩)) = false
    ∧ ssh_execute_run (SshAttempt.completes ⟨5, "out", "err"⟩)
      = "Command failed with exit status 5:\nerr"
    ∧ containsStr "out" (ssh_execute_run (SshAttempt.completes ⟨5, "out", "err"⟩)) = false := by
  refine ⟨rfl, by decide, rfl, by decide⟩

/-- C4 (amended): `execute` returns a single formatted string rather than a
(status, stdout, stderr) triple: a transport failure yields `"SSH error: "`
plus the exception text; exit status 0 yields a success line embedding only
stdout; a non-zero status yields a failure line embedding the status and
stderr (stdout is dropped). -/
theorem c4_execute_result_string (e : RemoteExec) (m : String) :
    ssh_execute_run (SshAttempt.transport m) = "SSH error: " ++ m
    ∧ (e.exitStatus = 0 →
        ssh_execute_run (SshAttempt.completes e) = "Command executed successfully:\n" ++ e.stdout)
    ∧ (e.exitStatus ≠ 0 →
        ssh_execute_run (SshAttempt.completes e) =
          "Command failed with exit status " ++ toString e.exitStatus ++ ":\n" ++ e.stderr) := by
  refine ⟨rfl, ?_, ?_⟩
  · intro h; simp [ssh_execute_run, h]
  · intro h; simp [ssh_execute_run, h]

/-- Witness for `c4_execute_result_string` at two concrete executions. -/
theorem c4_witness :
    ssh_execute_run (SshAttempt.completes ⟨0, "ready", "warn"⟩)
      = "Command executed successfully:\nready"
    ∧ ssh_execute_run (SshAttempt.completes ⟨7, "ready", "warn"⟩)
      = "Command failed with exit status 7:\nwarn" := by
  have h1 := c4_execute_result_string ⟨0, "ready", "warn"⟩ ""
  have h2 := c4_execute_result_string ⟨7, "ready", "warn"⟩ ""
  exact ⟨h1.2.1 rfl, h2.2.2 (by decide)⟩

/-! ## Claim C5 — the join credential and durable storage -/

/-- Claim C5 states that the join-credential bearer value is never written to
durable storage.  False of the source: `ScriptGeneratorTool._run` writes the
generated worker script — which embeds the `join_command` parameter verbatim
— to a file at `output_path`, and the master script it generates persists the
join command to `/root/k8s_join_command.sh` on the control-plane host's disk.
Refuted at a concrete `k8s_worker` generation call whose join command carries
the bearer token `tok-123`. -/
theorem c5_counterexample :
    ((script_generator_run "k8s_worker" "./k8s_setup/scripts/worker_setup.sh"
        paramsJoinOnly).fst.any fun w => containsStr "tok-123" w.2) = true
    ∧ containsStr "echo \"$JOIN_COMMAND\" > /root/k8s_join_command.sh"
        (generate_k8s_master_script paramsJoinOnly) = true := by
  exact ⟨by decide, by decide⟩

/-- C5 (amended): the credential value is written to durable storage — a
`k8s_worker` generation call writes exactly one file, at `output_path`, whose
content embeds the `join_command` parameter value verbatim, and every
generated master script contains the line persisting the live join command to
`/root/k8s_join_command.sh`. -/
theorem c5_credential_persisted (p : Params) (path : String) :
    (script_generator_run "k8s_worker" path p).fst
      = [(path, workerPre ++ p.getD "join_command" "" ++ workerSuf)]
    ∧ ∃ s t, generate_k8s_master_script p = s ++ masterPersistLine ++ t := by
  refine ⟨rfl,
    masterA ++ p.getD "pod_network_cidr" "10.244.0.0/16" ++ masterB
      ++ p.getD "service_cidr" "10.96.0.0/12" ++ masterC1, masterC2, rfl⟩

/-! ## Claim C6 — input validation -/

/-- A configuration with every required field present, one master, a negative
worker count, and existing key files. -/
def cfgNegWorkers : K8sConfig :=
  { keys := requiredFields
    master_count := 1
    worker_count := -1
    ssh_public_key_path := "./.ssh/id_rsa.pub"
    ssh_private_key_path := "./.ssh/id_rsa" }

/-- Claim C6 states that validation accepts only topologies with worker count
≥ 0.  False of the source: `validate_config` never examines `worker_count`'s
value, so a topology requesting −1 workers passes validation (with key files
present). -/
theorem c6_counterexample :
    validate_config cfgNegWorkers (fun _ => true) = true
    ∧ cfgNegWorkers.worker_count < 0 := by
  exact ⟨by decide, by decide⟩

/-- C6 (amended): `validate_config` rejects any configuration requesting
fewer than one master node, but performs no check on the worker count — its
result is unchanged under replacing `worker_count` by any integer, so
negative worker counts are accepted. -/
theorem c6_validation (cfg : K8sConfig) (fs : String → Bool) (w : Int) :
    (cfg.master_count < 1 → validate_config cfg fs = false)
    ∧ validate_config cfg fs = validate_config { cfg with worker_count := w } fs := by
  refine ⟨?_, rfl⟩
  intro h
  unfold validate_config
  split
  · simp [h]
  · rfl

/-- Witness for `c6_validation`: a zero-master configuration is rejected, and
the worker count is irrelevant to validation. -/
theorem c6_witness :
    validate_config ⟨requiredFields, 0, 2, "a", "b"⟩ (fun _ => true) = false
    ∧ validate_config ⟨requiredFields, 0, 2, "a", "b"⟩ (fun _ => true)
      = validate_config ⟨requiredFields, 0, 5, "a", "b"⟩ (fun _ => true) := by
  have h := c6_validation ⟨requiredFields, 0, 2, "a", "b"⟩ (fun _ => true) 5
  exact ⟨h.1 (by decide), h.2⟩

/-! ## Claim C7 — script generation is pure and deterministic -/

/-- Claim C7 (confirmed): script generation is a pure function of
`script_type` and the parameters — the embedding consumes no channel or
filesystem oracle, so two calls with equal inputs agree; moreover the worker
script is exactly a fixed prefix, the `join_command` parameter value
verbatim, and a fixed suffix, and the common script embeds exactly the
requested `kubernetes_version` (at its two splice points), so each
generator's output is determined by the parameters it consults. -/
theorem c7_script_generation_pure (p q : Params) :
    generate_k8s_worker_script p = workerPre ++ p.getD "join_command" "" ++ workerSuf
    ∧ (p.getD "join_command" "" = q.getD "join_command" "" →
        generate_k8s_worker_script p = generate_k8s_worker_script q)
    ∧ generate_common_script p =
        commonA ++ p.getD "kubernetes_version" "1.28.2" ++ commonB
          ++ p.getD "kubernetes_version" "1.28.2" ++ commonC
    ∧ (p.getD "kubernetes_version" "1.28.2" = q.getD "kubernetes_version" "1.28.2" →
        generate_common_script p = generate_common_script q) := by
  refine ⟨rfl, ?_, rfl, ?_⟩
  · intro h; simp [generate_k8s_worker_script, h]
  · intro h; simp [generate_common_script, h]

/-- Witness for `c7_script_generation_pure`: two parameter dictionaries that
agree on the consulted keys but differ elsewhere produce identical worker and
common scripts. -/
theorem c7_witness :
    generate_k8s_worker_script paramsJoinOnly = generate_k8s_worker_script paramsJoinPlus
    ∧ generate_common_script paramsJoinOnly = generate_common_script paramsJoinPlus := by
  have h := c7_script_generation_pure paramsJoinOnly paramsJoinPlus
  exact ⟨h.2.1 (by decide), h.2.2.2 (by decide)⟩

/-! ## Claim C8 — structured results from the entry points -/

/-- Claim C8 (confirmed): for every outcome of the collaborator calls —
including any exception raised during cluster creation or destruction —
`setup_kubernetes_cluster` and `destroy_cluster` return a structured result
(success flag plus message); the single `except Exception` in each source
function maps a raised exception to the failure dictionary instead of
propagating it, which is why the embeddings below are total in the oracle
outcomes, with the exception text captured in `message`/`error`. -/
theorem c8_structured_results (cf : PyOutcome Unit) (iv dv : PyOutcome String)
    (e out : String) :
    (cf = PyOutcome.raises e →
      setup_kubernetes_cluster cf iv
        = ClusterResult.err ("Error setting up Kubernetes cluster: " ++ e) e)
    ∧ (cf = PyOutcome.ok () → iv = PyOutcome.raises e →
      setup_kubernetes_cluster cf iv
        = ClusterResult.err ("Error setting up Kubernetes cluster: " ++ e) e)
    ∧ (cf = PyOutcome.ok () → iv = PyOutcome.ok out →
      setup_kubernetes_cluster cf iv
        = ClusterResult.ok "Kubernetes cluster setup completed successfully" out)
    ∧ (dv = PyOutcome.raises e →
      destroy_cluster dv
        = ClusterResult.err ("Error destroying Kubernetes cluster: " ++ e) e)
    ∧ (dv = PyOutcome.ok out →
      destroy_cluster dv
        = ClusterResult.ok "Kubernetes cluster destroyed successfully" out) := by
  refine ⟨?_, ?_, ?_, ?_, ?_⟩ <;> intro h
  · simp [setup_kubernetes_cluster, h]
  · intro h2; simp [setup_kubernetes_cluster, h, h2]
  · intro h2; simp [setup_kubernetes_cluster, h, h2]
  · simp [destroy_cluster, h]
  · simp [destroy_cluster, h]

/-- Witness for `c8_structured_results`: an agent run raising an exception
yields the failure dictionary; successful runs yield the success
dictionaries. -/
theorem c8_witness :
    setup_kubernetes_cluster (PyOutcome.ok ()) (PyOutcome.raises "rate limited")
      = ClusterResult.err "Error setting up Kubernetes cluster: rate limited" "rate limited"
    ∧ setup_kubernetes_cluster (PyOutcome.ok ()) (PyOutcome.ok "done")
      = ClusterResult.ok "Kubernetes cluster setup completed successfully" "done"
    ∧ destroy_cluster (PyOutcome.raises "no state")
      = ClusterResult.err "Error destroying Kubernetes cluster: no state" "no state" := by
  have h1 := c8_structured_results (PyOutcome.ok ()) (PyOutcome.raises "rate limited")
    (PyOutcome.raises "no state") "rate limited" "done"
  have h2 := c8_structured_results (PyOutcome.ok ()) (PyOutcome.ok "done")
    (PyOutcome.raises "no state") "no state" "done"
  exact ⟨h1.2.1 rfl rfl, h2.2.2.1 rfl rfl, h2.2.2.2.1 rfl⟩

/-! ## Claim C10 — terraform tools restore the working directory -/

/-- Claim C10 (confirmed): for every terraform tool and every `workspace_dir`
naming an immediate child of the current working directory that can be
entered (`enter = none`), `_run` restores the process working directory to
its pre-call value before returning — on subprocess success, subprocess
failure, and even a propagating exception — because `finally: os.chdir("..")`
undoes the initial `os.chdir(workspace_dir)`. -/
theorem c10_cwd_restored (cwd : List String) (ws : String)
    (proc outputsProc : TfProc) (parsed : Option String) :
    (terraform_init_run cwd ws none proc).fst = cwd
    ∧ (terraform_plan_run cwd ws none proc).fst = cwd
    ∧ (terraform_apply_run cwd ws none proc outputsProc parsed).fst = cwd
    ∧ (terraform_output_run cwd ws none proc parsed).fst = cwd
    ∧ (terraform_destroy_run cwd ws none proc).fst = cwd := by
  refine ⟨?_, ?_, ?_, ?_, ?_⟩ <;>
    simp [terraform_init_run, terraform_plan_run, terraform_apply_run,
      terraform_output_run, terraform_destroy_run]

/-! ## Claim C9 — recursive directory transfer: helper lemmas -/

theorem mem_fileNames {ts : List FsTree} {n : String}
    (h : FsTree.file n ∈ ts) : n ∈ fileNames ts := by
  simp only [fileNames, List.mem_filterMap]
  exact ⟨FsTree.file n, h, rfl⟩

theorem mem_dirNames {ts : List FsTree} {n : String} {cs : List FsTree}
    (h : FsTree.dir n cs ∈ ts) : n ∈ dirNames ts := by
  simp only [dirNames, List.mem_filterMap]
  exact ⟨FsTree.dir n cs, h, rfl⟩

theorem relpath_append (base p : List String) : relpath (base ++ p) base = p := by
  simp [relpath]

theorem fileAt_ne_nil {ts : List FsTree} {r : List String}
    (h : FileAt ts r) : r ≠ [] := by
  cases h <;> simp

/-- A file directly inside a walked frame contributes its `put` action to
that frame's action block. -/
theorem put_mem_frameActions {ts : List FsTree} {f : String}
    (h : FsTree.file f ∈ ts) (L R p : List String) :
    ScpAction.put (L ++ (p ++ [f])) (R ++ (p ++ [f]))
      ∈ walkFrameActions L R (L ++ p) ts := by
  apply List.mem_append_right
  apply List.mem_map.mpr
  refine ⟨f, mem_fileNames h, ?_⟩
  rw [List.append_assoc, relpath_append]

/-- A subdirectory directly inside a walked frame contributes its
`ensureRemoteDir` action to the directory part of that frame's action block,
before every `put` of the frame. -/
theorem ensure_mem_split_frameActions {ts : List FsTree} {d : String}
    {cs : List FsTree} (h : FsTree.dir d cs ∈ ts) (L R p : List String) :
    ∃ α β, walkFrameActions L R (L ++ p) ts
      = α ++ ScpAction.ensureRemoteDir (R ++ (p ++ [d])) :: β := by
  obtain ⟨u, v, huv⟩ := List.append_of_mem (mem_dirNames h)
  refine ⟨u.map fun d' => ScpAction.ensureRemoteDir (R ++ relpath ((L ++ p) ++ [d']) L),
    (v.map fun d' => ScpAction.ensureRemoteDir (R ++ relpath ((L ++ p) ++ [d']) L))
      ++ (fileNames ts).map (fun f =>
        ScpAction.put ((L ++ p) ++ [f]) (R ++ relpath ((L ++ p) ++ [f]) L)), ?_⟩
  rw [walkFrameActions, huv]
  simp [List.append_assoc, relpath_append]

/-- The frames of a subdirectory of a walked directory form a contiguous
block of the remaining walk. -/
theorem subtree_block_subWalkList {ts : List FsTree} {d : String}
    {cs : List FsTree} (h : FsTree.dir d cs ∈ ts) (L R root : List String) :
    ∃ u v, subWalkList L R root ts
      = u ++ (walkFrameActions L R (root ++ [d]) cs
              ++ subWalkList L R (root ++ [d]) cs) ++ v := by
  induction ts with
  | nil => cases h
  | cons t rest ih =>
    cases h with
    | head =>
      exact ⟨[], subWalkList L R root rest, by simp [subWalkList, subWalkTree]⟩
    | tail _ hmem =>
      obtain ⟨u, v, huv⟩ := ih hmem
      exact ⟨subWalkTree L R root t ++ u, v,
        by simp [subWalkList, huv, List.append_assoc]⟩

/-- Locates a file's `put` action, and the `ensureRemoteDir` action of its
parent directory, inside the walk of a directory tree: a file directly in the
walked root is `put` by the root's own frame; a deeper file's parent
directory is ensured (by an earlier frame) strictly before the file's `put`
is emitted.  Roots are tracked as `L ++ p` with `p` the position of the
walked directory relative to `local_path = L`. -/
theorem upload_walk_locates {ts : List FsTree} {r : List String}
    (h : FileAt ts r) :
    ∀ (L R p q : List String) (f : String), r = q ++ [f] →
      (q = [] → ScpAction.put (L ++ (p ++ r)) (R ++ (p ++ r))
          ∈ walkFrameActions L R (L ++ p) ts)
      ∧ (q ≠ [] → ∃ l₁ l₂,
          walkFrameActions L R (L ++ p) ts ++ subWalkList L R (L ++ p) ts
            = l₁ ++ ScpAction.ensureRemoteDir (R ++ (p ++ q)) :: l₂
          ∧ ScpAction.put (L ++ (p ++ r)) (R ++ (p ++ r)) ∈ l₂) := by
  induction h with
  | @here ts n hmem =>
    intro L R p q f hr
    cases q with
    | nil =>
      simp only [List.nil_append] at hr
      injection hr with h1 _
      subst h1
      constructor
      · intro _
        exact put_mem_frameActions hmem L R p
      · intro hq
        exact absurd rfl hq
    | cons a q' =>
      simp only [List.cons_append] at hr
      injection hr with h1 h2
      exact absurd h2.symm (by simp)
  | @there ts n cs r' hdir hsub ih =>
    intro L R p q f hr
    cases q with
    | nil =>
      simp only [List.nil_append] at hr
      injection hr with h1 h2
      exact absurd h2 (fileAt_ne_nil hsub)
    | cons d q' =>
      simp only [List.cons_append] at hr
      injection hr with h1 h2
      subst h1
      subst h2
      refine ⟨fun hq => absurd hq (by simp), fun _ => ?_⟩
      obtain ⟨α, β, hsplit⟩ := ensure_mem_split_frameActions hdir L R p
      obtain ⟨u, v, hblock⟩ := subtree_block_subWalkList hdir L R (L ++ p)
      cases q' with
      | nil =>
        have hput := (ih L R (p ++ [n]) [] f rfl).1 rfl
        refine ⟨α, β ++ (u ++ (walkFrameActions L R ((L ++ p) ++ [n]) cs
            ++ subWalkList L R ((L ++ p) ++ [n]) cs) ++ v), ?_, ?_⟩
        · rw [hsplit, hblock]
          simp [List.append_assoc]
        · apply List.mem_append_right
          apply List.mem_append_left
          apply List.mem_append_right
          apply List.mem_append_left
          simpa [List.append_assoc] using hput
      | cons d2 q'' =>
        obtain ⟨l₁, l₂, heq, hput⟩ :=
          (ih L R (p ++ [n]) (d2 :: q'') f rfl).2 (by simp)
        simp only [← List.append_assoc] at heq
        refine ⟨walkFrameActions L R (L ++ p) ts ++ (u ++ l₁), l₂ ++ v, ?_, ?_⟩
        · rw [hblock, heq]
          simp [List.append_assoc]
        · exact List.mem_append_left _ (by simpa [List.append_assoc] using hput)

/-- A member item's download actions form a contiguous block of
`download_dir_recursive` over its directory. -/
theorem item_block_download {ts : List FsTree} {t : FsTree} (h : t ∈ ts)
    (rd ld : List String) :
    ∃ u v, download_dir_recursive rd ld ts
      = u ++ downloadItem rd ld t ++ v := by
  induction ts with
  | nil => cases h
  | cons t' rest ih =>
    cases h with
    | head =>
      exact ⟨[], download_dir_recursive rd ld rest, by simp [download_dir_recursive]⟩
    | tail _ hmem =>
      obtain ⟨u, v, huv⟩ := ih hmem
      exact ⟨downloadItem rd ld t' ++ u, v,
        by simp [download_dir_recursive, huv, List.append_assoc]⟩

/-- Locates a file's `get` action, and the `ensureLocalDir` action of its
parent directory, inside `download_dir_recursive`: a file directly in the
listed directory is fetched by that call; a deeper file's parent directory is
created (when missing) strictly before the file's `get` is emitted. -/
theorem download_locates {ts : List FsTree} {r : List String}
    (h : FileAt ts r) :
    ∀ (rd ld q : List String) (f : String), r = q ++ [f] →
      (q = [] → ScpAction.get (rd ++ r) (ld ++ r)
          ∈ download_dir_recursive rd ld ts)
      ∧ (q ≠ [] → ∃ l₁ l₂,
          download_dir_recursive rd ld ts
            = l₁ ++ ScpAction.ensureLocalDir (ld ++ q) :: l₂
          ∧ ScpAction.get (rd ++ r) (ld ++ r) ∈ l₂) := by
  induction h with
  | @here ts n hmem =>
    intro rd ld q f hr
    cases q with
    | nil =>
      simp only [List.nil_append] at hr
      injection hr with h1 _
      subst h1
      constructor
      · intro _
        obtain ⟨u, v, huv⟩ := item_block_download hmem rd ld
        rw [huv]
        apply List.mem_append_left
        apply List.mem_append_right
        simp [downloadItem]
      · intro hq
        exact absurd rfl hq
    | cons a q' =>
      simp only [List.cons_append] at hr
      injection hr with h1 h2
      exact absurd h2.symm (by simp)
  | @there ts n cs r' hdir hsub ih =>
    intro rd ld q f hr
    cases q with
    | nil =>
      simp only [List.nil_append] at hr
      injection hr with h1 h2
      exact absurd h2 (fileAt_ne_nil hsub)
    | cons d q' =>
      simp only [List.cons_append] at hr
      injection hr with h1 h2
      subst h1
      subst h2
      refine ⟨fun hq => absurd hq (by simp), fun _ => ?_⟩
      obtain ⟨u, v, huv⟩ := item_block_download hdir rd ld
      cases q' with
      | nil =>
        have hget := (ih (rd ++ [n]) (ld ++ [n]) [] f rfl).1 rfl
        refine ⟨u, download_dir_recursive (rd ++ [n]) (ld ++ [n]) cs ++ v, ?_, ?_⟩
        · rw [huv]
          simp [downloadItem, List.append_assoc]
        · apply List.mem_append_left
          simpa [List.append_assoc] using hget
      | cons d2 q'' =>
        obtain ⟨l₁, l₂, heq, hget⟩ :=
          (ih (rd ++ [n]) (ld ++ [n]) (d2 :: q'') f rfl).2 (by simp)
        refine ⟨u ++ ScpAction.ensureLocalDir (ld ++ [n]) :: l₁, l₂ ++ v, ?_, ?_⟩
        · rw [huv]
          simp only [downloadItem, heq]
          simp [List.append_assoc]
        · exact List.mem_append_left _ (by simpa [List.append_assoc] using hget)

/-- Claim C9 (confirmed): in a recursive upload the action trace first
ensures the destination directory exists (creating it when the existence
check fails), and for every regular file at relative path `r = q ++ [f]`
under the source directory, the trace transfers it to its corresponding path
under the destination (`put (local ++ r) (remote ++ r)`), with the
`ensureRemoteDir` of its parent directory `remote ++ q` emitted strictly
earlier; recursive download symmetrically ensures the local destination
directory first, creates each missing local directory before fetching the
files below it, and fetches every remote leaf file to its corresponding local
path. -/
theorem c9_recursive_transfer (L R Rd Ld : List String) {ts : List FsTree}
    {r q : List String} {f : String} (h : FileAt ts r) (hr : r = q ++ [f]) :
    (∃ tl, uploadDirActions L R ts = ScpAction.ensureRemoteDir R :: tl)
    ∧ (∃ l₁ l₂, uploadDirActions L R ts
        = l₁ ++ ScpAction.ensureRemoteDir (R ++ q) :: l₂
        ∧ ScpAction.put (L ++ r) (R ++ r) ∈ l₂)
    ∧ (∃ tl, scp_download_recursive Rd Ld ts = ScpAction.ensureLocalDir Ld :: tl)
    ∧ (∃ m₁ m₂, scp_download_recursive Rd Ld ts
        = m₁ ++ ScpAction.ensureLocalDir (Ld ++ q) :: m₂
        ∧ ScpAction.get (Rd ++ r) (Ld ++ r) ∈ m₂) := by
  have hup := upload_walk_locates h L R [] q f hr
  have hdn := download_locates h Rd Ld q f hr
  simp only [List.append_nil, List.nil_append] at hup hdn
  refine ⟨⟨uploadWalk L R ts, rfl⟩, ?_,
    ⟨download_dir_recursive Rd Ld ts, rfl⟩, ?_⟩
  · cases q with
    | nil =>
      have hput := hup.1 rfl
      refine ⟨[], uploadWalk L R ts, by simp [uploadDirActions], ?_⟩
      unfold uploadWalk
      exact List.mem_append_left _ hput
    | cons d q' =>
      obtain ⟨l₁, l₂, heq, hput⟩ := hup.2 (by simp)
      exact ⟨ScpAction.ensureRemoteDir R :: l₁, l₂,
        by simp [uploadDirActions, uploadWalk, heq], hput⟩
  · cases q with
    | nil =>
      have hget := hdn.1 rfl
      exact ⟨[], download_dir_recursive Rd Ld ts,
        by simp [scp_download_recursive], hget⟩
    | cons d q' =>
      obtain ⟨l₁, l₂, heq, hget⟩ := hdn.2 (by simp)
      exact ⟨ScpAction.ensureLocalDir Ld :: l₁, l₂,
        by simp [scp_download_recursive, heq], hget⟩

/-- Witness for `c9_recursive_transfer` on the concrete tree
`[dir "conf" [file "app.yaml"], file "top.txt"]` with the file at relative
path `["conf", "app.yaml"]`. -/
theorem c9_witness :
    FileAt [FsTree.dir "conf" [FsTree.file "app.yaml"], FsTree.file "top.txt"]
      ["conf", "app.yaml"]
    ∧ ((∃ tl, uploadDirActions ["home", "user", "data"] ["srv", "backup"]
          [FsTree.dir "conf" [FsTree.file "app.yaml"], FsTree.file "top.txt"]
          = ScpAction.ensureRemoteDir ["srv", "backup"] :: tl)
      ∧ (∃ l₁ l₂, uploadDirActions ["home", "user", "data"] ["srv", "backup"]
            [FsTree.dir "conf" [FsTree.file "app.yaml"], FsTree.file "top.txt"]
          = l₁ ++ ScpAction.ensureRemoteDir (["srv", "backup"] ++ ["conf"]) :: l₂
          ∧ ScpAction.put (["home", "user", "data"] ++ ["conf", "app.yaml"])
              (["srv", "backup"] ++ ["conf", "app.yaml"]) ∈ l₂)
      ∧ (∃ tl, scp_download_recursive ["remote", "src"] ["local", "dst"]
            [FsTree.dir "conf" [FsTree.file "app.yaml"], FsTree.file "top.txt"]
          = ScpAction.ensureLocalDir ["local", "dst"] :: tl)
      ∧ (∃ m₁ m₂, scp_download_recursive ["remote", "src"] ["local", "dst"]
            [FsTree.dir "conf" [FsTree.file "app.yaml"], FsTree.file "top.txt"]
          = m₁ ++ ScpAction.ensureLocalDir (["local", "dst"] ++ ["conf"]) :: m₂
          ∧ ScpAction.get (["remote", "src"] ++ ["conf", "app.yaml"])
              (["local", "dst"] ++ ["conf", "app.yaml"]) ∈ m₂)) := by
  have hfa : FileAt [FsTree.dir "conf" [FsTree.file "app.yaml"], FsTree.file "top.txt"]
      ["conf", "app.yaml"] :=
    FileAt.there (List.mem_cons_self _ _) (FileAt.here (List.mem_cons_self _ _))
  exact ⟨hfa, c9_recursive_transfer ["home", "user", "data"] ["srv", "backup"]
    ["remote", "src"] ["local", "dst"] hfa rfl⟩
